import Mathlib

/-!
# Verification of `scripts/do_release.py` (ReproBrainChart release-branches)

A shallow embedding of the QC-outcome resolution and release-orchestration
logic of `scripts/do_release.py`, together with theorems settling the frozen
claims about it.

Modelling conventions:
* A filesystem path is a list of components relative to `data_dir`
  (the script `os.chdir`s into `data_dir` and all git/glob operations are
  relative to it).  The on-disk state is a `List Path` enumerating every
  existing node; `Path.exists` is membership, and `git rm -rf p` removes `p`
  and everything below it (every node having `p` as a prefix).
* pandas rows become structures; a pandas `NaN` in an optional string column
  (`task`, `acq`, `run`) is `Option.none`; `fmriExclude` is an `Int`.
* `subprocess` results become a `RunResult` structure with an `Int`
  returncode (negative values model death-by-signal, as in `subprocess`).
* External collaborators (`git`, `Path.rglob`) are modelled as data: git
  calls are recorded in a trace of `GitOp`s, and `rglob` is an explicit
  function parameter from the current filesystem, a base directory and a
  glob pattern to the list of matching paths.
-/

namespace DoRelease

/-- A filesystem path, as components relative to `data_dir`. -/
abbrev Path := List String

/-- One row of a structural (T1) QC table, after `read_qc_tsv`. -/
structure T1Row where
  participant_id : String
  session_id : String
  qc_determination : String
  deriving DecidableEq, Repr

/-- One row of a functional (BOLD) QC table, after `read_qc_tsv`.
`none` in `task`/`acq`/`run` models a pandas `NaN` (missing column or
empty field). -/
structure BoldRow where
  participant_id : String
  session_id : String
  task : Option String
  acq : Option String
  run : Option String
  fmriExclude : Int
  deriving DecidableEq, Repr

/-- One external git call issued through `safe_run`. -/
inductive GitOp where
  | checkout (ref : String)
  | checkoutNewBranch (name : String)
  | rm (paths : List Path)
  | commit (msg : String)
  | tag (name : String)
  | push (remote : String) (ref : String)
  deriving DecidableEq, Repr

/--
`NO_SES_STUDIES = {"CCNP": 1, "PNC": "PNC1"}`.
The Python dict value for CCNP is the integer `1`; it is only ever used
through f-string formatting, where it renders as `"1"`, so we model both
sentinels as strings.
-/
def NO_SES_STUDIES : List (String × String) := [("CCNP", "1"), ("PNC", "PNC1")]

/-- `study_name in NO_SES_STUDIES` lookup (`NO_SES_STUDIES[study_name]`). -/
def noSesLookup (study : String) : Option String :=
  (NO_SES_STUDIES.find? (fun kv => kv.1 == study)).map (fun kv => kv.2)

/--
The table-loading stage of `get_things_to_delete` (lines 87–94): the
structural table has `session_id` overwritten with the study's sentinel when
the study is a no-session study; the BOLD table is returned as read.
-/
def load_qc_tables (study : String) (t1_rows : List T1Row) (bold_rows : List BoldRow) :
    List T1Row × List BoldRow :=
  match noSesLookup study with
  | some ses => (t1_rows.map (fun r => { r with session_id := ses }), bold_rows)
  | none => (t1_rows, bold_rows)

/--
`get_things_to_delete` (lines 57–109): loads both tables and returns
`(t1_artifact, t1_fail, bold_fail)` — the structural rows with
determination Artifact, those with determination Fail, and the BOLD rows
with `fmriExclude > 0`.
-/
def get_things_to_delete (study : String) (t1_rows : List T1Row) (bold_rows : List BoldRow) :
    List T1Row × List T1Row × List BoldRow :=
  let loaded := load_qc_tables study t1_rows bold_rows
  let t1_qc_df := loaded.1
  let bold_qc_df := loaded.2
  (t1_qc_df.filter (fun r => r.qc_determination == "Artifact"),
   t1_qc_df.filter (fun r => r.qc_determination == "Fail"),
   bold_qc_df.filter (fun r => r.fmriExclude > 0))

/--
The pure path computation of the nested helper `get_dir_to_delete`
(lines 162–181), without the existence check.  `doing_bold` is
`bold_fail is not None` in `clean_dataset`.
-/
def get_dir_base (study : String) (doing_bold : Bool) (participant_id session_id : String) :
    Path :=
  let inner_dir := if doing_bold then "cpac_RBCv0" else "freesurfer"
  let participant_dir := "sub-" ++ participant_id
  if (noSesLookup study).isSome then
    [inner_dir, participant_dir]
  else if !doing_bold && study != "HBN" then
    [inner_dir, participant_dir ++ "_ses-" ++ session_id]
  else if !doing_bold && study == "HBN" then
    [inner_dir, participant_dir]
  else
    [inner_dir, participant_dir, "ses-" ++ session_id]

/-- Render a path as a string (for log messages). -/
def pathStr (p : Path) : String := String.intercalate "/" p

/--
`get_dir_to_delete` (lines 162–185): resolve the directory and return it
only if it exists on the current filesystem `fs`; otherwise `none`
(the Python returns `None` after `logging.warning`).
-/
def get_dir_to_delete (study : String) (doing_bold : Bool) (fs : List Path)
    (participant_id session_id : String) : Option Path :=
  let base_dir := get_dir_base study doing_bold participant_id session_id
  if base_dir ∈ fs then some base_dir else none

/-- The warning lines `get_dir_to_delete` logs (lines 182–183): one
`missing …` warning exactly when the resolved directory does not exist. -/
def get_dir_warnings (study : String) (doing_bold : Bool) (fs : List Path)
    (participant_id session_id : String) : List String :=
  let base_dir := get_dir_base study doing_bold participant_id session_id
  if base_dir ∈ fs then [] else ["missing " ++ pathStr base_dir]

/-- `check_globbable(attr)` (lines 198–199): the attribute is a string and
truthy.  A pandas `NaN` is not a string (`none` here); `""` is falsy. -/
def check_globbable : Option String → Bool
  | some s => s != ""
  | none => false

/-- One clause of the glob pattern: `search += f"«label»-{attr}*"` guarded by
`check_globbable` (lines 201–207). -/
def searchClause (label : String) (attr : Option String) : String :=
  if check_globbable attr then label ++ "-" ++ (attr.getD "") ++ "*" else ""

/-- The glob pattern built by `delete_bold_files` (lines 201–207):
`"*"` extended by the task, acq and run clauses, in that order. -/
def bold_search (row : BoldRow) : String :=
  "*" ++ searchClause "task" row.task ++ searchClause "acq" row.acq
      ++ searchClause "run" row.run

/-- The base directory `delete_bold_files` globs under (lines 190–193):
always `cpac_RBCv0/sub-«participant»/ses-«session»`. -/
def bold_base_dir (row : BoldRow) : Path :=
  ["cpac_RBCv0", "sub-" ++ row.participant_id, "ses-" ++ row.session_id]

/--
`delete_bold_files` (lines 187–211).  Returns `none` when the base
directory does not exist (silent early `return`), otherwise the list of
paths matched by `base_dir.rglob(search)`.  The recursive glob is the
filesystem collaborator, passed in as `rglob`.
-/
def delete_bold_files (fs : List Path) (rglob : List Path → Path → String → List Path)
    (row : BoldRow) : Option (List Path) :=
  let base_dir := bold_base_dir row
  if base_dir ∈ fs then some (rglob fs base_dir (bold_search row)) else none

/-- `git rm -rf p`: remove `p` and every node below it from the worktree. -/
def removeRec (fs : List Path) (p : Path) : List Path :=
  fs.filter (fun q => !(p.isPrefixOf q))

/--
The chunk sizes produced by `np.array_split(l, m)` for a sequence of length
`n = q*m + r` split into `m` sections: the first `r` sections have size
`q + 1`, the remaining `m - r` sections size `q`.  Arguments: section count,
quotient `q`, and the number `r` of oversized leading sections.
-/
def splitSizes : Nat → Nat → Nat → List Nat
  | 0, _, _ => []
  | m + 1, q, r => (if 0 < r then q + 1 else q) :: splitSizes m q (r - 1)

/-- Cut a list into consecutive chunks of the given sizes. -/
def takeChunks : List Nat → List Path → List (List Path)
  | [], _ => []
  | k :: ks, l => l.take k :: takeChunks ks (l.drop k)

/-- `np.array_split(l, m)` on a 1-d sequence of paths. -/
def array_split (l : List Path) (m : Nat) : List (List Path) :=
  takeChunks (splitSizes m (l.length / m) (l.length % m)) l

/--
The batches issued by `safe_delete_batch(files_to_delete, batch_size)`
(lines 124–135): nothing for an empty list; otherwise
`np.array_split(files, len(files) // batch_size + 1)`.
-/
def chunksOf (files : List Path) (batch_size : Nat) : List (List Path) :=
  if files.isEmpty then [] else array_split files (files.length / batch_size + 1)

/-- `safe_delete_batch` as the list of `git rm -rf` calls it issues.  Every
call site in the script uses the default `batch_size=5000`, passed
explicitly here. -/
def safe_delete_batch (files : List Path) (batch_size : Nat) : List GitOp :=
  (chunksOf files batch_size).map GitOp.rm

/--
The nested helper `commit_and_push(branchname, msg, do_commit)`
(lines 213–219), as the list of git calls it issues: commit only when
`do_commit`, then tag, push the branch, push the tag.
-/
def commit_and_push (branchname msg : String) (do_commit : Bool) : List GitOp :=
  let tagname := "release-" ++ branchname
  (if do_commit then [GitOp.commit msg] else []) ++
    [GitOp.tag tagname, GitOp.push "origin" branchname, GitOp.push "origin" tagname]

/-- Accumulator for the per-row BOLD deletion loop (lines 237–242). -/
structure BoldAcc where
  files : List Path
  fs : List Path
  ops : List GitOp
  warns : List String
  deriving DecidableEq, Repr

/--
One iteration of the BOLD loop (lines 238–242): glob the row's files from
the current worktree; a missing base directory contributes nothing
(silently); an empty glob result logs a warning and deletes nothing; a
non-empty result is appended to the running list and deleted at once.
-/
def bold_step (rglob : List Path → Path → String → List Path) (acc : BoldAcc)
    (row : BoldRow) : BoldAcc :=
  match delete_bold_files acc.fs rglob row with
  | none => acc
  | some fls =>
    if fls.isEmpty then
      { acc with warns := acc.warns ++ ["No files found for sub-" ++ row.participant_id] }
    else
      { files := acc.files ++ fls,
        fs := fls.foldl removeRec acc.fs,
        ops := acc.ops ++ safe_delete_batch fls 5000,
        warns := acc.warns }

/-- The whole BOLD loop, starting from worktree `fs`. -/
def bold_phase (rglob : List Path → Path → String → List Path) (rows : List BoldRow)
    (fs : List Path) : BoldAcc :=
  rows.foldl (bold_step rglob) ⟨[], fs, [], []⟩

/--
A branch's structural deletion plan (lines 226–231 and 255–259): the loop
appends `str(base_dir)` for every row whose directory resolves and exists
on the worktree `fs` as it is when the loop runs.
-/
def plan_dirs (study : String) (doing_bold : Bool) (fs : List Path) (rows : List T1Row) :
    List Path :=
  rows.filterMap (fun r => get_dir_to_delete study doing_bold fs r.participant_id r.session_id)

/-- The warnings logged while building a structural deletion plan. -/
def plan_warns (study : String) (doing_bold : Bool) (fs : List Path) (rows : List T1Row) :
    List String :=
  rows.flatMap (fun r => get_dir_warnings study doing_bold fs r.participant_id r.session_id)

/--
The observable outcome of one `clean_dataset` run: the git-call trace (whole
and per branch), the worktree content at each `git checkout -b` (each
branch's content before its own deletions), the three deletion plans, and
the worktree left at the end.
-/
structure CleanResult where
  trace : List GitOp
  mainContent : List Path
  warningBase : List Path
  artifactBase : List Path
  passBase : List Path
  warningOps : List GitOp
  artifactOps : List GitOp
  passOps : List GitOp
  fail_dirs : List Path
  bold_files : List Path
  artifact_dirs : List Path
  fsAfterArtifact : List Path
  finalFs : List Path
  warns : List String
  deriving Repr

/--
`clean_dataset(study_name, tag, data_dir, t1_artifact, t1_fail, bold_fail)`
(lines 138–267).  `data_fs` is `main`'s content, which is also the worktree
after the initial `git checkout main`; `bold_fail = none` is the structural
invocation, `bold_fail = some rows` the BOLD one.  The worktree is mutated
by each `git rm -rf` and is never reset between branches (there is no
further `git checkout main`).
-/
def clean_dataset (study tag : String) (data_fs : List Path)
    (t1_artifact t1_fail : List T1Row) (bold_fail : Option (List BoldRow))
    (rglob : List Path → Path → String → List Path) : CleanResult :=
  let warning_branch := "warning-fail-" ++ tag
  let artifact_branch := "complete-artifact-" ++ tag
  let pass_branch := "complete-pass-" ++ tag
  let doing_bold := bold_fail.isSome
  let fs0 := data_fs
  let warningOps := commit_and_push warning_branch "update warning branch" false
  let fail_dirs := plan_dirs study doing_bold fs0 t1_fail
  let failWarns := plan_warns study doing_bold fs0 t1_fail
  let fs1 := fail_dirs.foldl removeRec fs0
  let boldAcc :=
    match bold_fail with
    | none => BoldAcc.mk [] fs1 [] []
    | some rows => bold_phase rglob rows fs1
  let fail_plus_bold_to_del := fail_dirs ++ boldAcc.files
  let artifactOps := safe_delete_batch fail_dirs 5000 ++ boldAcc.ops ++
    commit_and_push artifact_branch "remove qc-fail sessions"
      (decide (0 < fail_plus_bold_to_del.length))
  let fs2 := boldAcc.fs
  let artifact_dirs := plan_dirs study doing_bold fs2 t1_artifact
  let artifactWarns := plan_warns study doing_bold fs2 t1_artifact
  let fs3 := artifact_dirs.foldl removeRec fs2
  let passOps := safe_delete_batch artifact_dirs 5000 ++
    commit_and_push pass_branch "remove qc-artifact sessions"
      (decide (0 < artifact_dirs.length))
  { trace := [GitOp.checkout "main", GitOp.checkoutNewBranch warning_branch] ++ warningOps ++
      [GitOp.checkoutNewBranch artifact_branch] ++ artifactOps ++
      [GitOp.checkoutNewBranch pass_branch] ++ passOps,
    mainContent := fs0,
    warningBase := fs0,
    artifactBase := fs0,
    passBase := fs2,
    warningOps := warningOps,
    artifactOps := artifactOps,
    passOps := passOps,
    fail_dirs := fail_dirs,
    bold_files := boldAcc.files,
    artifact_dirs := artifact_dirs,
    fsAfterArtifact := fs2,
    finalFs := fs3,
    warns := failWarns ++ boldAcc.warns ++ artifactWarns }

/-- `subprocess.run` outcome as consumed by `safe_run` (lines 112–121). -/
structure RunResult where
  returncode : Int
  stdout : String
  stderr : String
  deriving DecidableEq, Repr

/-- `safe_run` raises exactly when `result.returncode > 0` (line 118). -/
def safe_run_fails (r : RunResult) : Bool := r.returncode > 0

/-- What `safe_run` prints before raising (lines 119–120): the captured
stderr and stdout, each after a label; nothing when it does not raise. -/
def safe_run_printed (r : RunResult) : List String :=
  if r.returncode > 0 then
    ["stderr: " ++ r.stderr, "stdout: " ++ r.stdout]
  else []

/-! ## Helper lemmas -/

theorem takeChunks_join (ks : List Nat) (l : List Path) :
    (takeChunks ks l).flatten = l.take ks.sum := by
  induction ks generalizing l with
  | nil => simp [takeChunks]
  | cons k ks ih =>
    simp only [takeChunks, List.flatten_cons, List.sum_cons, ih, List.take_add]

theorem takeChunks_length (ks : List Nat) (l : List Path) :
    (takeChunks ks l).length = ks.length := by
  induction ks generalizing l with
  | nil => rfl
  | cons k ks ih => simp [takeChunks, ih]

theorem mem_takeChunks (ks : List Nat) (l : List Path) (c : List Path)
    (hc : c ∈ takeChunks ks l) : ∃ k ∈ ks, c.length ≤ k := by
  induction ks generalizing l with
  | nil => simp [takeChunks] at hc
  | cons k ks ih =>
    simp only [takeChunks, List.mem_cons] at hc
    rcases hc with rfl | hc
    · exact ⟨k, List.mem_cons_self _ _, by simp⟩
    · obtain ⟨k', hk', hlen⟩ := ih _ hc
      exact ⟨k', List.mem_cons_of_mem _ hk', hlen⟩

theorem splitSizes_sum (m q r : Nat) : (splitSizes m q r).sum = m * q + min r m := by
  induction m generalizing r with
  | zero => simp [splitSizes]
  | succ m ih =>
    rcases Nat.eq_zero_or_pos r with rfl | hr
    · have hmul : (m + 1) * q = m * q + q := by ring
      simp only [splitSizes, Nat.lt_irrefl, if_false, List.sum_cons, ih]
      omega
    · have : (0 < r) = True := by simp [hr]
      simp only [splitSizes, this, if_true, List.sum_cons, ih]
      have hm : (m + 1) * q = m * q + q := by ring
      omega

theorem splitSizes_length (m q r : Nat) : (splitSizes m q r).length = m := by
  induction m generalizing r with
  | zero => rfl
  | succ m ih => simp [splitSizes, ih]

theorem mem_splitSizes_le (m q r : Nat) (s : Nat) (hs : s ∈ splitSizes m q r) :
    s ≤ q + 1 := by
  induction m generalizing r with
  | zero => simp [splitSizes] at hs
  | succ m ih =>
    simp only [splitSizes, List.mem_cons] at hs
    rcases hs with rfl | hs
    · split <;> omega
    · exact ih _ hs

/-- The batches always concatenate, in order, back to the original list. -/
theorem chunksOf_join (files : List Path) (k : Nat) : (chunksOf files k).flatten = files := by
  unfold chunksOf
  split
  · next h => simp [List.isEmpty_iff] at h; simp [h]
  · next h =>
    have hm : 0 < files.length / k + 1 := Nat.succ_pos _
    rw [array_split, takeChunks_join, splitSizes_sum,
      Nat.min_eq_left (Nat.le_of_lt (Nat.mod_lt _ hm)), Nat.div_add_mod, List.take_length]

/-- No batch exceeds the cap, for any positive cap. -/
theorem chunksOf_le (files : List Path) (k : Nat) (hk : 0 < k) (c : List Path)
    (hc : c ∈ chunksOf files k) : c.length ≤ k := by
  unfold chunksOf at hc
  split at hc
  · simp at hc
  · obtain ⟨s, hs, hlen⟩ := mem_takeChunks _ _ _ hc
    have hsle := mem_splitSizes_le _ _ _ _ hs
    set n := files.length with hn
    set m := n / k + 1 with hmdef
    have h1 : k * (n / k) + n % k = n := Nat.div_add_mod n k
    have h2 : n % k < k := Nat.mod_lt _ hk
    have h3 : n < k * m := by
      have : k * m = k * (n / k) + k := by rw [hmdef, Nat.mul_succ]
      omega
    have h4 : n / m < k := (Nat.div_lt_iff_lt_mul (Nat.succ_pos _)).mpr h3
    omega

/-- The number of batches issued: `0` for an empty list, else `n / k + 1`. -/
theorem chunksOf_length (files : List Path) (k : Nat) :
    (chunksOf files k).length = if files.isEmpty then 0 else files.length / k + 1 := by
  unfold chunksOf
  split <;> simp [array_split, takeChunks_length, splitSizes_length, *]

theorem mem_removeRec {fs : List Path} {p q : Path} (h : q ∈ removeRec fs p) :
    q ∈ fs ∧ p.isPrefixOf q = false := by
  unfold removeRec at h
  simpa using List.mem_filter.mp h

theorem removeRec_subset (fs : List Path) (p : Path) : removeRec fs p ⊆ fs :=
  fun _ hq => (List.mem_filter.mp hq).1

theorem foldl_removeRec_subset (l : List Path) (fs : List Path) :
    l.foldl removeRec fs ⊆ fs := by
  induction l generalizing fs with
  | nil => exact fun _ h => h
  | cons p l ih =>
    intro q hq
    exact removeRec_subset fs p (ih (removeRec fs p) hq)

theorem mem_foldl_removeRec {l : List Path} {fs : List Path} {q : Path}
    (h : q ∈ l.foldl removeRec fs) : q ∈ fs ∧ ∀ p ∈ l, p.isPrefixOf q = false := by
  induction l generalizing fs with
  | nil => exact ⟨h, by simp⟩
  | cons p l ih =>
    obtain ⟨h1, h2⟩ := @ih (removeRec fs p) h
    obtain ⟨h3, h4⟩ := mem_removeRec h1
    exact ⟨h3, by simpa using ⟨h4, h2⟩⟩

/-- A path deleted by `git rm -rf` is gone from the resulting worktree. -/
theorem not_mem_foldl_removeRec {l : List Path} {fs : List Path} {p : Path}
    (hp : p ∈ l) : p ∉ l.foldl removeRec fs := by
  intro hmem
  obtain ⟨-, h⟩ := mem_foldl_removeRec hmem
  have h1 := h p hp
  have h2 : List.isPrefixOf p p = true :=
    List.isPrefixOf_iff_prefix.mpr (List.prefix_refl p)
  rw [h1] at h2
  cases h2

theorem mem_plan_dirs {study : String} {doing_bold : Bool} {fs : List Path}
    {rows : List T1Row} {p : Path} :
    p ∈ plan_dirs study doing_bold fs rows ↔
      ∃ r ∈ rows, get_dir_base study doing_bold r.participant_id r.session_id = p ∧ p ∈ fs := by
  unfold plan_dirs get_dir_to_delete
  rw [List.mem_filterMap]
  constructor
  · rintro ⟨r, hr, hsome⟩
    by_cases hmem : get_dir_base study doing_bold r.participant_id r.session_id ∈ fs
    · simp only [hmem, if_true, Option.some.injEq] at hsome
      exact ⟨r, hr, hsome, hsome ▸ hmem⟩
    · simp [hmem] at hsome
  · rintro ⟨r, hr, rfl, hmem⟩
    exact ⟨r, hr, by simp [hmem]⟩

theorem countP_filterMap_eq {α β : Type} (f : α → Option β) (l : List α)
    (p : β → Bool) :
    (l.filterMap f).countP p = l.countP (fun a => (f a).any p) := by
  induction l with
  | nil => rfl
  | cons a l ih =>
    rcases hfa : f a with _ | b <;>
      simp [List.filterMap_cons, hfa, List.countP_cons, ih]

theorem bold_step_ops (rglob : List Path → Path → String → List Path) (acc : BoldAcc)
    (row : BoldRow) : ∃ cs : List (List Path),
      (bold_step rglob acc row).ops = acc.ops ++ cs.map GitOp.rm ∧
      (bold_step rglob acc row).files = acc.files ++ cs.flatten ∧
      (bold_step rglob acc row).fs ⊆ acc.fs := by
  unfold bold_step
  rcases delete_bold_files acc.fs rglob row with _ | fls
  · exact ⟨[], by simp⟩
  · simp only
    split
    · next hfls => exact ⟨[], by simp⟩
    · refine ⟨chunksOf fls 5000, ?_, ?_, ?_⟩
      · simp [safe_delete_batch]
      · simp [chunksOf_join]
      · exact foldl_removeRec_subset _ _

theorem bold_foldl_ops (rglob : List Path → Path → String → List Path)
    (rows : List BoldRow) (acc : BoldAcc) : ∃ cs : List (List Path),
      (rows.foldl (bold_step rglob) acc).ops = acc.ops ++ cs.map GitOp.rm ∧
      (rows.foldl (bold_step rglob) acc).files = acc.files ++ cs.flatten ∧
      (rows.foldl (bold_step rglob) acc).fs ⊆ acc.fs := by
  induction rows generalizing acc with
  | nil => exact ⟨[], by simp⟩
  | cons row rows ih =>
    obtain ⟨cs1, hops1, hfiles1, hfs1⟩ := bold_step_ops rglob acc row
    obtain ⟨cs2, hops2, hfiles2, hfs2⟩ := ih (bold_step rglob acc row)
    refine ⟨cs1 ++ cs2, ?_, ?_, ?_⟩
    · simp [List.foldl_cons, hops2, hops1]
    · simp [List.foldl_cons, hfiles2, hfiles1]
    · exact fun q hq => hfs1 (hfs2 hq)

/-- The ops of the whole BOLD phase are `git rm` calls whose path lists
concatenate to exactly the accumulated file list, and the phase only ever
shrinks the worktree. -/
theorem bold_phase_ops (rglob : List Path → Path → String → List Path)
    (rows : List BoldRow) (fs : List Path) : ∃ cs : List (List Path),
      (bold_phase rglob rows fs).ops = cs.map GitOp.rm ∧
      (bold_phase rglob rows fs).files = cs.flatten ∧
      (bold_phase rglob rows fs).fs ⊆ fs := by
  obtain ⟨cs, h1, h2, h3⟩ := bold_foldl_ops rglob rows ⟨[], fs, [], []⟩
  exact ⟨cs, by simpa using h1, by simpa using h2, h3⟩

/-- The branch names created with `git checkout -b`, in trace order. -/
def branchCreations (t : List GitOp) : List String :=
  t.filterMap (fun op => match op with
    | GitOp.checkoutNewBranch n => some n
    | _ => none)

theorem branchCreations_append (s t : List GitOp) :
    branchCreations (s ++ t) = branchCreations s ++ branchCreations t :=
  List.filterMap_append ..

theorem branchCreations_map_rm (cs : List (List Path)) :
    branchCreations (cs.map GitOp.rm) = [] := by
  induction cs with
  | nil => rfl
  | cons c cs ih => exact ih

theorem branchCreations_commit_and_push (b m : String) (c : Bool) :
    branchCreations (commit_and_push b m c) = [] := by
  cases c <;> rfl

/-- `searchClause` restated with a propositional emptiness test: a clause is
contributed exactly when the field is a present, non-empty string. -/
theorem searchClause_eq (l : String) (o : Option String) :
    searchClause l o = match o with
      | some s => if s = "" then "" else l ++ "-" ++ s ++ "*"
      | none => "" := by
  rcases o with _ | s
  · rfl
  · by_cases hs : s = "" <;> simp [searchClause, check_globbable, hs]

/-! ## Claim theorems -/

/--
Claim C2, counterexample.  The claim asserts the number of batches is the
minimum possible, `⌈len/k⌉`.  For a one-element deletion list and cap
`k = 1`, the code computes `n_chunks = 1 // 1 + 1 = 2` and
`np.array_split` yields the batches `[[path], []]`: two batches (one of
them empty) where the minimal count `⌈1/1⌉ = 1` would suffice.
-/
theorem claim2_counterexample :
    chunksOf [["a"]] 1 = [[["a"]], []] ∧ (chunksOf [["a"]] 1).length ≠ 1 := by
  decide

/--
Claim C2, amended.  For every deletion list and every positive batch cap
`k`, the batches produced by `safe_delete_batch` concatenate in order to
exactly the original list (each path exactly once, no omissions or
duplicates beyond those of the input) and no batch exceeds `k` elements;
but the number of batches is `len // k + 1` for a non-empty list (`0` for
an empty one), which exceeds the minimal `⌈len/k⌉` by one exactly when `k`
divides `len`.
-/
theorem claim2_batch_split (files : List Path) (k : Nat) (hk : 0 < k) :
    (chunksOf files k).flatten = files ∧
    (∀ c ∈ chunksOf files k, c.length ≤ k) ∧
    (chunksOf files k).length = if files.isEmpty then 0 else files.length / k + 1 :=
  ⟨chunksOf_join files k, fun c hc => chunksOf_le files k hk c hc, chunksOf_length files k⟩

/-- Witness for `claim2_batch_split` at a three-element list with cap 2. -/
theorem claim2_batch_split_witness :
    0 < 2 ∧
      ((chunksOf [["a"], ["b"], ["c"]] 2).flatten = [["a"], ["b"], ["c"]] ∧
        (∀ c ∈ chunksOf [["a"], ["b"], ["c"]] 2, c.length ≤ 2) ∧
        (chunksOf [["a"], ["b"], ["c"]] 2).length =
          if ([["a"], ["b"], ["c"]] : List Path).isEmpty then 0
          else ([["a"], ["b"], ["c"]] : List Path).length / 2 + 1) :=
  ⟨by decide, claim2_batch_split [["a"], ["b"], ["c"]] 2 (by decide)⟩

/--
Claim C5, counterexample.  The claim asserts every record processed in the
BOLD derivatives tree resolves to a session-nested directory
`cpac_RBCv0/sub-«p»/ses-«s»`.  But for a no-session study (here CCNP) the
structural-QC records processed in the BOLD tree resolve through
`get_dir_to_delete`, whose no-session branch drops the session component
even when `doing_bold` is true: participant 0001 resolves to
`cpac_RBCv0/sub-0001`, not `cpac_RBCv0/sub-0001/ses-1`.
-/
theorem claim5_counterexample :
    get_dir_base "CCNP" true "0001" "1" = ["cpac_RBCv0", "sub-0001"] ∧
    get_dir_base "CCNP" true "0001" "1" ≠ ["cpac_RBCv0", "sub-0001", "ses-1"] := by
  decide

/--
Claim C5, amended.  Functional-exclusion records (`delete_bold_files`)
always glob under the session-nested `cpac_RBCv0/sub-«p»/ses-«s»`; the
structural-QC records processed in the BOLD tree (`get_dir_to_delete` with
`doing_bold`) resolve session-nested for every study that is not a
no-session study (including HBN), but for a no-session study they resolve
to the flat `cpac_RBCv0/sub-«p»` with no session component.
-/
theorem claim5_functional_layout (row : BoldRow) (study pid sid : String) :
    bold_base_dir row
      = ["cpac_RBCv0", "sub-" ++ row.participant_id, "ses-" ++ row.session_id] ∧
    (noSesLookup study = none →
      get_dir_base study true pid sid = ["cpac_RBCv0", "sub-" ++ pid, "ses-" ++ sid]) ∧
    (∀ v, noSesLookup study = some v →
      get_dir_base study true pid sid = ["cpac_RBCv0", "sub-" ++ pid]) := by
  refine ⟨rfl, ?_, ?_⟩
  · intro h
    simp [get_dir_base, h]
  · intro v h
    simp [get_dir_base, h]

/-- Witness for `claim5_functional_layout`: NKI (session-stratified) nests
the session, CCNP (no-session) does not. -/
theorem claim5_functional_layout_witness :
    (noSesLookup "NKI" = none ∧
      get_dir_base "NKI" true "01" "2" = ["cpac_RBCv0", "sub-01", "ses-2"]) ∧
    (noSesLookup "CCNP" = some "1" ∧
      get_dir_base "CCNP" true "01" "2" = ["cpac_RBCv0", "sub-01"]) :=
  ⟨⟨by decide,
    (claim5_functional_layout ⟨"01", "2", none, none, none, 1⟩ "NKI" "01" "2").2.1
      (by decide)⟩,
   ⟨by decide,
    (claim5_functional_layout ⟨"01", "2", none, none, none, 1⟩ "CCNP" "01" "2").2.2 "1"
      (by decide)⟩⟩

/--
Claim C6, counterexample.  The claim asserts that for a no-session study
every loaded record of both tables has its `session_id` overridden to the
sentinel.  The code overrides only the structural table
(`t1_qc_df["session_id"] = NO_SES_STUDIES[study_name]`); the BOLD table
keeps whatever the file contained: for CCNP (sentinel "1") a functional
row with session "2" still has session "2" after load.
-/
theorem claim6_counterexample :
    noSesLookup "CCNP" = some "1" ∧
    (load_qc_tables "CCNP" [] [⟨"0002", "2", none, none, none, 1⟩]).2.map
        BoldRow.session_id = ["2"] ∧
    ("2" : String) ≠ "1" := by
  decide

/--
Claim C6, amended.  For every no-session study, after loading, every record
of the structural table has its `session_id` equal to the study's sentinel
label (independent of the table's contents), while the functional table is
returned exactly as read, its `session_id` not overridden.
-/
theorem claim6_session_override (study ses : String) (h : noSesLookup study = some ses)
    (t1_rows : List T1Row) (bold_rows : List BoldRow) :
    (∀ r ∈ (load_qc_tables study t1_rows bold_rows).1, r.session_id = ses) ∧
    (load_qc_tables study t1_rows bold_rows).2 = bold_rows := by
  have heq : load_qc_tables study t1_rows bold_rows
      = (t1_rows.map (fun r => { r with session_id := ses }), bold_rows) := by
    unfold load_qc_tables
    rw [h]
  rw [heq]
  refine ⟨?_, rfl⟩
  intro r hr
  simp only [List.mem_map] at hr
  obtain ⟨r0, -, rfl⟩ := hr
  rfl

/-- Witness for `claim6_session_override` at CCNP with a structural row
whose table session is "7" and a functional row with session "2". -/
theorem claim6_session_override_witness :
    noSesLookup "CCNP" = some "1" ∧
    ((∀ r ∈ (load_qc_tables "CCNP" [⟨"0003", "7", "Fail"⟩]
        [⟨"0002", "2", none, none, none, 1⟩]).1, r.session_id = "1") ∧
      (load_qc_tables "CCNP" [⟨"0003", "7", "Fail"⟩]
        [⟨"0002", "2", none, none, none, 1⟩]).2 = [⟨"0002", "2", none, none, none, 1⟩]) :=
  ⟨by decide,
   claim6_session_override "CCNP" "1" (by decide) [⟨"0003", "7", "Fail"⟩]
     [⟨"0002", "2", none, none, none, 1⟩]⟩

/--
Claim C7, counterexample.  The claim asserts the run aborts on any non-zero
exit status, including negative (signal) statuses.  `safe_run` tests
`result.returncode > 0`: a returncode of `-9` (process killed by SIGKILL)
is non-zero yet does not abort.
-/
theorem claim7_counterexample :
    safe_run_fails ⟨-9, "out", "err"⟩ = false ∧ (-9 : Int) ≠ 0 := by
  decide

/--
Claim C7, amended.  An external git call aborts the run if and only if its
exit status is strictly positive (negative/signal statuses do not abort),
and on abort the captured stderr and stdout are printed, each after a
label; nothing is printed otherwise.
-/
theorem claim7_safe_run (r : RunResult) :
    (safe_run_fails r = true ↔ 0 < r.returncode) ∧
    (0 < r.returncode →
      safe_run_printed r = ["stderr: " ++ r.stderr, "stdout: " ++ r.stdout]) ∧
    (¬ 0 < r.returncode → safe_run_printed r = []) := by
  unfold safe_run_fails safe_run_printed
  refine ⟨by simp, ?_, ?_⟩ <;> intro h <;> simp [h]

/-- Witness for `claim7_safe_run` at returncode 1. -/
theorem claim7_safe_run_witness :
    (0 : Int) < 1 ∧
      safe_run_printed ⟨1, "o", "e"⟩ = ["stderr: " ++ "e", "stdout: " ++ "o"] :=
  ⟨by decide, (claim7_safe_run ⟨1, "o", "e"⟩).2.1 (by decide)⟩

/--
Claim C8, counterexample.  The claim asserts a record whose resolved
directory is missing is dropped *with a logged warning* both for the
structural resolution and for the functional base-directory check.  For
the functional check the code returns early with no logging at all: on an
empty worktree `bold_step` leaves the accumulator — including its warning
list — completely unchanged, even when the glob collaborator would have
matched files.
-/
theorem claim8_counterexample :
    bold_step (fun _ _ _ => [["f"]]) ⟨[], [], [], []⟩ ⟨"0002", "1", none, none, none, 1⟩
      = ⟨[], [], [], []⟩ := by
  decide

/--
Claim C8, amended.  A QC record whose resolved directory does not exist is
dropped and never fatal in both trees, but the logging differs: the
structural resolution (`get_dir_to_delete`) returns `None` after logging a
`missing …` warning, while the functional base-directory check in
`delete_bold_files` returns silently, contributing no warning, no deletion
and no git call (an unmatched-glob warning is only logged when the base
directory exists but the glob finds nothing).
-/
theorem claim8_missing_paths (study : String) (doing_bold : Bool) (fs : List Path)
    (pid sid : String) (rglob : List Path → Path → String → List Path)
    (acc : BoldAcc) (row : BoldRow)
    (h1 : get_dir_base study doing_bold pid sid ∉ fs)
    (h2 : bold_base_dir row ∉ acc.fs) :
    get_dir_to_delete study doing_bold fs pid sid = none ∧
    get_dir_warnings study doing_bold fs pid sid
      = ["missing " ++ pathStr (get_dir_base study doing_bold pid sid)] ∧
    bold_step rglob acc row = acc := by
  refine ⟨?_, ?_, ?_⟩
  · simp [get_dir_to_delete, h1]
  · simp [get_dir_warnings, h1]
  · simp [bold_step, delete_bold_files, h2]

/-- Witness for `claim8_missing_paths` on an empty worktree. -/
theorem claim8_missing_paths_witness :
    (get_dir_base "NKI" false "09" "3" ∉ ([] : List Path)) ∧
    (bold_base_dir ⟨"0004", "1", none, none, none, 1⟩ ∉ (BoldAcc.mk [] [] [] []).fs) ∧
    (get_dir_to_delete "NKI" false [] "09" "3" = none ∧
      get_dir_warnings "NKI" false [] "09" "3"
        = ["missing " ++ pathStr (get_dir_base "NKI" false "09" "3")] ∧
      bold_step (fun _ _ _ => []) (BoldAcc.mk [] [] [] [])
        ⟨"0004", "1", none, none, none, 1⟩ = BoldAcc.mk [] [] [] []) :=
  ⟨by decide, by decide,
   claim8_missing_paths "NKI" false [] "09" "3" (fun _ _ _ => [])
     ⟨[], [], [], []⟩ ⟨"0004", "1", none, none, none, 1⟩ (by decide) (by decide)⟩

/--
The spec's own wording of `resolve_bold_glob` (§4.3): a shell-glob pattern
`*` progressively extended with `task-«task»*`, `acq-«acq»*`, `run-«run»*`,
each clause appended only if the corresponding field is present and
non-empty; absent/empty fields contribute nothing, and exactly one pattern
is produced.  Compared against the code's `bold_search` in `claim9_bold_glob`.
-/
def spec_resolve_bold_glob (task acq rn : Option String) : String :=
  let clause := fun (label : String) (o : Option String) =>
    match o with
    | some s => if s = "" then "" else label ++ "-" ++ s ++ "*"
    | none => ""
  "*" ++ clause "task" task ++ clause "acq" acq ++ clause "run" rn

/--
Claim C9, confirmed.  For every functional-exclusion record the resolved
glob pattern is `*` extended by the clauses `task-«task»*`, `acq-«acq»*`,
`run-«run»*` in that order, each clause appended exactly when the
corresponding field is a present, non-empty string (absent or empty fields
contribute nothing), and exactly one pattern is produced; in particular the
record `{participant: "0002", session: "1", task: "rest", acq: absent,
run: "1"}` resolves to the single pattern `*task-rest*run-1*` under
`cpac_RBCv0/sub-0002/ses-1`.
-/
theorem claim9_bold_glob (row : BoldRow) :
    bold_search row = spec_resolve_bold_glob row.task row.acq row.run ∧
    bold_search ⟨"0002", "1", some "rest", none, some "1", 1⟩ = "*task-rest*run-1*" ∧
    bold_base_dir ⟨"0002", "1", some "rest", none, some "1", 1⟩
      = ["cpac_RBCv0", "sub-0002", "ses-1"] := by
  refine ⟨?_, by decide, by decide⟩
  simp only [bold_search, spec_resolve_bold_glob, searchClause_eq]

theorem batch_commit_shape (FD : List Path) (extraOps : List GitOp)
    (extraFiles : List Path) (b m : String)
    (h : ∃ cs0 : List (List Path), extraOps = cs0.map GitOp.rm ∧ cs0.flatten = extraFiles) :
    ∃ cs : List (List Path), cs.flatten = FD ++ extraFiles ∧
      safe_delete_batch FD 5000 ++ extraOps ++
          commit_and_push b m (decide (0 < (FD ++ extraFiles).length))
        = cs.map GitOp.rm
          ++ (if 0 < (FD ++ extraFiles).length then [GitOp.commit m] else [])
          ++ [GitOp.tag ("release-" ++ b), GitOp.push "origin" b,
              GitOp.push "origin" ("release-" ++ b)] := by
  obtain ⟨cs0, hops, hfiles⟩ := h
  refine ⟨chunksOf FD 5000 ++ cs0, ?_, ?_⟩
  · simp [chunksOf_join, hfiles]
  · subst hops
    unfold commit_and_push safe_delete_batch
    by_cases hlen : 0 < (FD ++ extraFiles).length <;> simp [hlen, List.append_assoc]

theorem batch_commit_shape_simple (FD : List Path) (b m : String) :
    ∃ cs : List (List Path), cs.flatten = FD ∧
      safe_delete_batch FD 5000 ++ commit_and_push b m (decide (0 < FD.length))
        = cs.map GitOp.rm ++ (if 0 < FD.length then [GitOp.commit m] else [])
          ++ [GitOp.tag ("release-" ++ b), GitOp.push "origin" b,
              GitOp.push "origin" ("release-" ++ b)] := by
  refine ⟨chunksOf FD 5000, chunksOf_join FD 5000, ?_⟩
  unfold commit_and_push safe_delete_batch
  by_cases hlen : 0 < FD.length <;> simp [hlen, List.append_assoc]

/--
Claim C1, counterexample.  The claim asserts each of the three branches is
created from `main`, its content before deletions equal to `main`'s.  The
code checks out `main` only once: after the artifact branch commits its
deletions, `git checkout -b` creates the pass branch from the artifact
branch's worktree.  Concretely, with `main` containing just
`freesurfer/sub-0001` and that directory Fail-flagged, the pass branch's
content at creation is empty, not `main`'s content.
-/
theorem claim1_counterexample :
    (clean_dataset "CCNP" "v1" [["freesurfer", "sub-0001"]] [] [⟨"0001", "1", "Fail"⟩]
        none (fun _ _ _ => [])).passBase
      ≠ (clean_dataset "CCNP" "v1" [["freesurfer", "sub-0001"]] [] [⟨"0001", "1", "Fail"⟩]
        none (fun _ _ _ => [])).mainContent := by
  decide

/--
Claim C1, amended.  The three branches are created strictly in the order
Warning, Artifact, Pass; the Warning and Artifact branches start from
`main`'s content (nothing is removed before their creation), but the Pass
branch starts from the Artifact branch's mutated worktree: every directory
deleted on the Artifact branch is already absent from the Pass branch's
content at creation, so the Pass branch's deletion plan (whose existence
checks run against that worktree) does depend on the Artifact branch's
deletions.
-/
theorem claim1_branch_order (study tag : String) (data_fs : List Path)
    (t1_artifact t1_fail : List T1Row) (bold_fail : Option (List BoldRow))
    (rglob : List Path → Path → String → List Path) :
    let res := clean_dataset study tag data_fs t1_artifact t1_fail bold_fail rglob
    branchCreations res.trace
      = ["warning-fail-" ++ tag, "complete-artifact-" ++ tag, "complete-pass-" ++ tag] ∧
    res.warningBase = res.mainContent ∧
    res.artifactBase = res.mainContent ∧
    ∀ p ∈ res.fail_dirs, p ∉ res.passBase := by
  rcases bold_fail with _ | rows
  · intro res
    refine ⟨?_, rfl, rfl, ?_⟩
    · have htrace : res.trace
          = [GitOp.checkout "main", GitOp.checkoutNewBranch ("warning-fail-" ++ tag)]
            ++ commit_and_push ("warning-fail-" ++ tag) "update warning branch" false
            ++ [GitOp.checkoutNewBranch ("complete-artifact-" ++ tag)]
            ++ (safe_delete_batch (plan_dirs study false data_fs t1_fail) 5000
              ++ [] ++ commit_and_push ("complete-artifact-" ++ tag)
                "remove qc-fail sessions"
                (decide (0 < (plan_dirs study false data_fs t1_fail ++ []).length)))
            ++ [GitOp.checkoutNewBranch ("complete-pass-" ++ tag)]
            ++ (safe_delete_batch (plan_dirs study false
                  ((plan_dirs study false data_fs t1_fail).foldl removeRec data_fs)
                  t1_artifact) 5000
              ++ commit_and_push ("complete-pass-" ++ tag) "remove qc-artifact sessions"
                (decide (0 < (plan_dirs study false
                  ((plan_dirs study false data_fs t1_fail).foldl removeRec data_fs)
                  t1_artifact).length))) := rfl
      rw [htrace]
      simp only [branchCreations_append, branchCreations_commit_and_push,
        safe_delete_batch, branchCreations_map_rm]
      rfl
    · intro p hp hmem
      have hfd : res.fail_dirs = plan_dirs study false data_fs t1_fail := rfl
      have hpass : res.passBase
          = (plan_dirs study false data_fs t1_fail).foldl removeRec data_fs := rfl
      rw [hfd] at hp
      rw [hpass] at hmem
      exact not_mem_foldl_removeRec hp hmem
  · intro res
    refine ⟨?_, rfl, rfl, ?_⟩
    · obtain ⟨cs, hops, -, -⟩ := bold_phase_ops rglob rows
        ((plan_dirs study true data_fs t1_fail).foldl removeRec data_fs)
      have htrace : res.trace
          = [GitOp.checkout "main", GitOp.checkoutNewBranch ("warning-fail-" ++ tag)]
            ++ commit_and_push ("warning-fail-" ++ tag) "update warning branch" false
            ++ [GitOp.checkoutNewBranch ("complete-artifact-" ++ tag)]
            ++ (safe_delete_batch (plan_dirs study true data_fs t1_fail) 5000
              ++ (bold_phase rglob rows
                  ((plan_dirs study true data_fs t1_fail).foldl removeRec data_fs)).ops
              ++ commit_and_push ("complete-artifact-" ++ tag) "remove qc-fail sessions"
                (decide (0 < (plan_dirs study true data_fs t1_fail
                  ++ (bold_phase rglob rows
                    ((plan_dirs study true data_fs t1_fail).foldl removeRec
                      data_fs)).files).length)))
            ++ [GitOp.checkoutNewBranch ("complete-pass-" ++ tag)]
            ++ (safe_delete_batch (plan_dirs study true
                  (bold_phase rglob rows
                    ((plan_dirs study true data_fs t1_fail).foldl removeRec data_fs)).fs
                  t1_artifact) 5000
              ++ commit_and_push ("complete-pass-" ++ tag) "remove qc-artifact sessions"
                (decide (0 < (plan_dirs study true
                  (bold_phase rglob rows
                    ((plan_dirs study true data_fs t1_fail).foldl removeRec data_fs)).fs
                  t1_artifact).length))) := rfl
      rw [htrace, hops]
      simp only [branchCreations_append, branchCreations_commit_and_push,
        safe_delete_batch, branchCreations_map_rm]
      rfl
    · intro p hp hmem
      have hfd : res.fail_dirs = plan_dirs study true data_fs t1_fail := rfl
      have hpass : res.passBase
          = (bold_phase rglob rows
              ((plan_dirs study true data_fs t1_fail).foldl removeRec data_fs)).fs := rfl
      obtain ⟨-, -, -, hsub⟩ := bold_phase_ops rglob rows
        ((plan_dirs study true data_fs t1_fail).foldl removeRec data_fs)
      rw [hfd] at hp
      rw [hpass] at hmem
      exact not_mem_foldl_removeRec hp (hsub hmem)

/-- Witness for `claim1_branch_order`: in the CCNP run above, the deleted
Fail directory is in the Artifact-branch plan and absent from the Pass
branch's content at creation. -/
theorem claim1_branch_order_witness :
    (["freesurfer", "sub-0001"] : Path) ∈
      (clean_dataset "CCNP" "v1" [["freesurfer", "sub-0001"]] [] [⟨"0001", "1", "Fail"⟩]
        none (fun _ _ _ => [])).fail_dirs ∧
    (["freesurfer", "sub-0001"] : Path) ∉
      (clean_dataset "CCNP" "v1" [["freesurfer", "sub-0001"]] [] [⟨"0001", "1", "Fail"⟩]
        none (fun _ _ _ => [])).passBase :=
  ⟨by decide,
   (claim1_branch_order "CCNP" "v1" [["freesurfer", "sub-0001"]] []
      [⟨"0001", "1", "Fail"⟩] none (fun _ _ _ => [])).2.2.2
     ["freesurfer", "sub-0001"] (by decide)⟩

/--
Claim C3, counterexample.  The claim asserts a record's resolved structural
directory appears in the Pass-branch plan iff its determination is
Artifact, and in the Artifact-branch plan iff Fail.  For the no-session
study CCNP, a Fail record and an Artifact record of the same participant
resolve to the same directory `freesurfer/sub-0001`.  The Artifact branch
deletes it, so when the Pass-branch plan is computed the directory no
longer exists: the Artifact-determined record's directory is absent from
the Pass-branch plan, while it does appear in the Artifact-branch plan
even though that record's determination is not Fail.
-/
theorem claim3_counterexample :
    (⟨"0001", "1", "Artifact"⟩ : T1Row).qc_determination = "Artifact" ∧
    (clean_dataset "CCNP" "v1" [["freesurfer", "sub-0001"]]
        [⟨"0001", "1", "Artifact"⟩] [⟨"0001", "1", "Fail"⟩] none
        (fun _ _ _ => [])).artifact_dirs = [] ∧
    get_dir_base "CCNP" false "0001" "1" ∈
      (clean_dataset "CCNP" "v1" [["freesurfer", "sub-0001"]]
        [⟨"0001", "1", "Artifact"⟩] [⟨"0001", "1", "Fail"⟩] none
        (fun _ _ _ => [])).fail_dirs := by
  decide

/--
Claim C3, amended.  In the structural run, a path is in the Artifact-branch
plan iff some loaded record with Fail determination resolves to it and it
exists on `main`'s content; a path is in the Pass-branch plan iff some
loaded record with Artifact determination resolves to it and it still
exists after the Artifact-branch deletions.  The two plans are disjoint —
but only because the Artifact branch's deletions remove shared directories
before the Pass-branch plan is computed; the record-wise biconditional of
the original claim fails (`claim3_counterexample`).
-/
theorem claim3_plan_membership (study tag : String) (fs : List Path)
    (t1_rows : List T1Row) (rglob : List Path → Path → String → List Path) (p : Path) :
    let loaded := (load_qc_tables study t1_rows []).1
    let things := get_things_to_delete study t1_rows []
    let res := clean_dataset study tag fs things.1 things.2.1 none rglob
    (p ∈ res.fail_dirs ↔
      (∃ r ∈ loaded, r.qc_determination = "Fail" ∧
        get_dir_base study false r.participant_id r.session_id = p) ∧ p ∈ fs) ∧
    (p ∈ res.artifact_dirs ↔
      (∃ r ∈ loaded, r.qc_determination = "Artifact" ∧
        get_dir_base study false r.participant_id r.session_id = p) ∧
        p ∈ res.fsAfterArtifact) ∧
    ¬ (p ∈ res.fail_dirs ∧ p ∈ res.artifact_dirs) := by
  intro loaded things res
  have hfail : res.fail_dirs
      = plan_dirs study false fs (loaded.filter (fun r => r.qc_determination == "Fail")) :=
    rfl
  have hart : res.artifact_dirs
      = plan_dirs study false res.fsAfterArtifact
          (loaded.filter (fun r => r.qc_determination == "Artifact")) := rfl
  refine ⟨?_, ?_, ?_⟩
  · rw [hfail, mem_plan_dirs]
    simp only [List.mem_filter, beq_iff_eq]
    tauto
  · rw [hart, mem_plan_dirs]
    simp only [List.mem_filter, beq_iff_eq]
    tauto
  · rintro ⟨hf, ha⟩
    rw [hart, mem_plan_dirs] at ha
    obtain ⟨r, -, -, hmem⟩ := ha
    have hfs2 : res.fsAfterArtifact = res.fail_dirs.foldl removeRec fs := rfl
    rw [hfs2] at hmem
    exact not_mem_foldl_removeRec hf hmem

/-- Witness for `claim3_plan_membership`: a Fail record of the
session-stratified study BHRC puts its existing resolved directory into the
Artifact-branch plan. -/
theorem claim3_plan_membership_witness :
    (["freesurfer", "sub-01_ses-1"] : Path) ∈
      (clean_dataset "BHRC" "v1" [["freesurfer", "sub-01_ses-1"]]
        (get_things_to_delete "BHRC" [⟨"01", "1", "Fail"⟩] []).1
        (get_things_to_delete "BHRC" [⟨"01", "1", "Fail"⟩] []).2.1 none
        (fun _ _ _ => [])).fail_dirs :=
  (claim3_plan_membership "BHRC" "v1" [["freesurfer", "sub-01_ses-1"]]
      [⟨"01", "1", "Fail"⟩] (fun _ _ _ => [])
      ["freesurfer", "sub-01_ses-1"]).1.mpr
    ⟨⟨⟨"01", "1", "Fail"⟩, by decide, by decide, by decide⟩, by decide⟩

/--
Claim C4, counterexample.  The claim asserts no path occurs more than once
within one branch's deletion plan (set semantics).  The loops build plain
Python lists with `append` and never deduplicate: for HBN (flat structural
layout), two Fail records of the same participant with different sessions
both resolve to `freesurfer/sub-0001`, and the Artifact-branch plan lists
that path twice.
-/
theorem claim4_counterexample :
    (clean_dataset "HBN" "v1" [["freesurfer", "sub-0001"]] []
        [⟨"0001", "1", "Fail"⟩, ⟨"0001", "2", "Fail"⟩] none (fun _ _ _ => [])).fail_dirs
      = [["freesurfer", "sub-0001"], ["freesurfer", "sub-0001"]] ∧
    ¬ (clean_dataset "HBN" "v1" [["freesurfer", "sub-0001"]] []
        [⟨"0001", "1", "Fail"⟩, ⟨"0001", "2", "Fail"⟩] none
        (fun _ _ _ => [])).fail_dirs.Nodup := by
  decide

/--
Claim C4, amended.  A branch's structural deletion plan has list, not set,
semantics: each path occurs once per QC record that resolves to it and
exists on the worktree, so several records resolving to the same path (a
no-session study, or the HBN flat layout) yield several occurrences.
-/
theorem claim4_plan_multiplicity (study : String) (doing_bold : Bool) (fs : List Path)
    (rows : List T1Row) (p : Path) :
    (plan_dirs study doing_bold fs rows).countP (fun q => q == p)
      = rows.countP (fun r =>
          get_dir_to_delete study doing_bold fs r.participant_id r.session_id == some p) := by
  unfold plan_dirs
  rw [countP_filterMap_eq]
  congr 1
  funext r
  rcases get_dir_to_delete study doing_bold fs r.participant_id r.session_id with _ | q
  · rfl
  · rfl

/--
Claim C10, confirmed.  For every branch processed: its ops are some
`git rm` calls whose path lists concatenate to exactly that branch's
deletion plan, followed by a commit exactly when that plan is non-empty
(i.e. when at least one path was removed), followed — in this order — by
the tag and both pushes, which always run.  The Warning branch never
removes anything and never commits, but is still tagged and pushed.
-/
theorem claim10_commit_tag_push (study tag : String) (data_fs : List Path)
    (t1_artifact t1_fail : List T1Row) (bold_fail : Option (List BoldRow))
    (rglob : List Path → Path → String → List Path) :
    let res := clean_dataset study tag data_fs t1_artifact t1_fail bold_fail rglob
    (res.warningOps
      = [GitOp.tag ("release-" ++ ("warning-fail-" ++ tag)),
         GitOp.push "origin" ("warning-fail-" ++ tag),
         GitOp.push "origin" ("release-" ++ ("warning-fail-" ++ tag))]) ∧
    (∃ cs : List (List Path), cs.flatten = res.fail_dirs ++ res.bold_files ∧
      res.artifactOps = cs.map GitOp.rm
        ++ (if 0 < (res.fail_dirs ++ res.bold_files).length
            then [GitOp.commit "remove qc-fail sessions"] else [])
        ++ [GitOp.tag ("release-" ++ ("complete-artifact-" ++ tag)),
            GitOp.push "origin" ("complete-artifact-" ++ tag),
            GitOp.push "origin" ("release-" ++ ("complete-artifact-" ++ tag))]) ∧
    (∃ cs : List (List Path), cs.flatten = res.artifact_dirs ∧
      res.passOps = cs.map GitOp.rm
        ++ (if 0 < res.artifact_dirs.length
            then [GitOp.commit "remove qc-artifact sessions"] else [])
        ++ [GitOp.tag ("release-" ++ ("complete-pass-" ++ tag)),
            GitOp.push "origin" ("complete-pass-" ++ tag),
            GitOp.push "origin" ("release-" ++ ("complete-pass-" ++ tag))]) := by
  rcases bold_fail with _ | rows
  · intro res
    exact ⟨rfl,
      batch_commit_shape (plan_dirs study false data_fs t1_fail) [] []
        ("complete-artifact-" ++ tag) "remove qc-fail sessions" ⟨[], rfl, rfl⟩,
      batch_commit_shape_simple
        (plan_dirs study false
          ((plan_dirs study false data_fs t1_fail).foldl removeRec data_fs) t1_artifact)
        ("complete-pass-" ++ tag) "remove qc-artifact sessions"⟩
  · intro res
    obtain ⟨cs0, hops, hfiles, -⟩ := bold_phase_ops rglob rows
      ((plan_dirs study true data_fs t1_fail).foldl removeRec data_fs)
    exact ⟨rfl,
      batch_commit_shape (plan_dirs study true data_fs t1_fail)
        (bold_phase rglob rows
          ((plan_dirs study true data_fs t1_fail).foldl removeRec data_fs)).ops
        (bold_phase rglob rows
          ((plan_dirs study true data_fs t1_fail).foldl removeRec data_fs)).files
        ("complete-artifact-" ++ tag) "remove qc-fail sessions" ⟨cs0, hops, hfiles.symm⟩,
      batch_commit_shape_simple
        (plan_dirs study true
          (bold_phase rglob rows
            ((plan_dirs study true data_fs t1_fail).foldl removeRec data_fs)).fs
          t1_artifact)
        ("complete-pass-" ++ tag) "remove qc-artifact sessions"⟩

end DoRelease
